import Mathlib

/-!
Verification of the PlaceRecorder screen (`src/App.tsx`).

The screen is a single React component holding transient form state
(title, description, latitude, longitude, photo), an in-memory list of
places, and a loading flag.  Its handlers (`fetchPlaces`, `getLocation`,
`takePhoto`, `handleSave`) and the list-item coordinate formatting are
embedded below as pure functions.  Each asynchronous external
interaction (permission prompt, camera session, HTTP round trip) is
passed in as an explicit argument describing its outcome, and every
`Alert.alert(title, message)` call is recorded as a `(title, message)`
pair in the returned notification list.  JavaScript numbers are modelled
as rationals; the claims proved here evaluate the code only at decimal
values far from any rounding tie, where the double-precision value and
the rational agree on every comparison performed.
-/

/-- A saved place record, as returned by the remote service
(the `Place` type in `App.tsx`).  The source field `_id` is spelled
`id` here. -/
structure Place where
  id : String
  title : String
  description : String
  latitude : Rat
  longitude : Rat
  photo : Option String := none
  createdAt : Option String := none
  deriving DecidableEq, Repr

/-- A modal notification: the `(title, message)` pair passed to
`Alert.alert`. -/
abbrev AppAlert := String × String

/-- The component state: the seven `useState` hooks of `App` in source
order (`title`, `description`, `latitude`, `longitude`, `photo`,
`places`, `loading`).  `null` becomes `none`. -/
structure AppState where
  title : String
  description : String
  latitude : Option Rat
  longitude : Option Rat
  photo : Option String
  places : List Place
  loading : Bool
  deriving DecidableEq, Repr

/-- The initial state of the component: the initializers of the seven
`useState` calls (`''`, `''`, `null`, `null`, `null`, `[]`, `false`). -/
def initialState : AppState :=
  { title := "", description := "", latitude := none, longitude := none,
    photo := none, places := [], loading := false }

/-- Outcome of the `GET /api/places` round trip in `fetchPlaces`:
either the fetch itself threw (`netError`), or a response arrived with
the given `ok` flag and `body` the result of `res.json()` (`none` when
the body failed to parse and `json()` threw).  The source reads the
body without ever inspecting `res.ok`. -/
inductive FetchOutcome where
  | response (ok : Bool) (body : Option (List Place))
  | netError
  deriving DecidableEq, Repr

/-- `fetchPlaces` from `App.tsx`: `setPlaces(await res.json())` inside a
`try`, with a single alert in the `catch`.  The `ok` flag of the
response is never consulted, so any response whose body parses replaces
the list. -/
def fetchPlaces (s : AppState) (outcome : FetchOutcome) :
    AppState × List AppAlert :=
  match outcome with
  | FetchOutcome.response _ (some data) => ({ s with places := data }, [])
  | FetchOutcome.response _ none =>
      (s, [("Erro", "Não foi possível carregar os registros")])
  | FetchOutcome.netError =>
      (s, [("Erro", "Não foi possível carregar os registros")])

/-- A current-position reading from the device
(`location.coords` in `getLocation`). -/
structure Coords where
  latitude : Rat
  longitude : Rat
  deriving DecidableEq, Repr

/-- `getLocation` from `App.tsx`: on a permission status other than
`'granted'`, alert and return; otherwise store both coordinates from the
single position reading. -/
def getLocation (s : AppState) (status : String) (position : Coords) :
    AppState × List AppAlert :=
  if status ≠ "granted" then
    (s, [("Permissão negada", "É necessário permitir o acesso à localização.")])
  else
    ({ s with latitude := some position.latitude,
              longitude := some position.longitude }, [])

/-- One camera asset (`result.assets[0]`): both fields are optional
strings in the source. -/
structure Asset where
  base64 : Option String := none
  uri : Option String := none
  deriving DecidableEq, Repr

/-- Result of `ImagePicker.launchCameraAsync`: a cancellation flag and
an optional asset array. -/
structure CameraResult where
  canceled : Bool
  assets : Option (List Asset)
  deriving DecidableEq, Repr

/-- JavaScript truthiness of an optional string: `undefined`, `null`
and the empty string are falsy. -/
def truthyOptStr : Option String → Bool
  | none => false
  | some t => !(t == "")

/-- `takePhoto` from `App.tsx`: on a permission status other than
`'granted'`, alert and return.  Otherwise, when the result is not
cancelled and has a non-empty asset array, store the base64 data URI
when `asset.base64` is truthy, else the raw URI when `asset.uri` is
truthy; in every other case change nothing. -/
def takePhoto (s : AppState) (status : String) (result : CameraResult) :
    AppState × List AppAlert :=
  if status ≠ "granted" then
    (s, [("Permissão negada", "É necessário permitir o uso da câmera.")])
  else
    match result.canceled, result.assets with
    | false, some (asset :: _) =>
        if truthyOptStr asset.base64 then
          let dataUri := "data:image/jpeg;base64," ++ asset.base64.getD ""
          ({ s with photo := some dataUri }, [])
        else if truthyOptStr asset.uri then
          ({ s with photo := some (asset.uri.getD "") }, [])
        else (s, [])
    | _, _ => (s, [])

/-- The guard of `handleSave`:
`!title || !description || latitude == null || longitude == null`.
A string is falsy exactly when empty, and `== null` tests only for
`null`/`undefined`, so a coordinate equal to `0` passes the guard. -/
def missingRequired (s : AppState) : Bool :=
  s.title == "" || s.description == "" || s.latitude.isNone || s.longitude.isNone

/-- The JSON body `{title, description, latitude, longitude, photo}` of
the `POST /api/places` request.  `handleSave` builds it only after the
guard has ensured both coordinates are present, so the `getD 0`
defaults are never reached. -/
structure PostPayload where
  title : String
  description : String
  latitude : Rat
  longitude : Rat
  photo : Option String
  deriving DecidableEq, Repr

/-- The payload `handleSave` serializes from the current draft. -/
def postPayload (s : AppState) : PostPayload :=
  { title := s.title, description := s.description,
    latitude := s.latitude.getD 0, longitude := s.longitude.getD 0,
    photo := s.photo }

/-- Outcome of the `POST /api/places` round trip in `handleSave`:
a success response whose body parsed as the created record (`ok`), a
response with `res.ok` false (`httpError`), or a thrown exception
(`netError`). -/
inductive PostResult where
  | ok (created : Place)
  | httpError
  | netError
  deriving DecidableEq, Repr

/-- `handleSave` from `App.tsx`.  The guard returns with a validation
alert and no request.  Otherwise `setLoading(true)` runs, the request
is issued (the third component records its payload, `none` meaning no
request), and:
on `!res.ok` an alert fires and the function returns; on success the
created record is prepended, the five draft fields are cleared and a
success alert fires; on an exception a connection alert fires.  The
`finally` block sets `loading` back to `false` on every one of those
three paths, so each post-request result carries `loading := false`. -/
def handleSave (s : AppState) (post : PostResult) :
    AppState × List AppAlert × Option PostPayload :=
  if missingRequired s then
    (s, [("Atenção", "Preencha título, descrição e capture a localização.")],
     none)
  else
    match post with
    | PostResult.ok created =>
        ({ s with places := created :: s.places, title := "",
                  description := "", latitude := none, longitude := none,
                  photo := none, loading := false },
         [("Sucesso", "Local salvo!")], some (postPayload s))
    | PostResult.httpError =>
        ({ s with loading := false },
         [("Erro", "Falha ao salvar o registro.")], some (postPayload s))
    | PostResult.netError =>
        ({ s with loading := false },
         [("Erro", "Falha na conexão com o backend.")], some (postPayload s))

/-- Left-pad a digit string to four characters with zeros. -/
def pad4 (s : String) : String :=
  String.mk (List.replicate (4 - s.length) '0') ++ s

/-- `round(q * 10^4)` for `q ≥ 0`, ties picking the larger integer, as
`Number.prototype.toFixed` specifies. -/
def round4 (q : Rat) : Nat :=
  (q.num.toNat * 20000 + q.den) / (2 * q.den)

/-- Render a non-negative rational with exactly four decimal places. -/
def toFixed4Pos (q : Rat) : String :=
  let n := round4 q
  toString (n / 10000) ++ "." ++ pad4 (toString (n % 10000))

/-- `x.toFixed(4)`: negative inputs are rendered as `"-"` followed by
the rendering of `-x`. -/
def toFixed4 (q : Rat) : String :=
  if q < 0 then "-" ++ toFixed4Pos (-q) else toFixed4Pos q

/-- The coordinate line of `renderItem`:
`item.latitude.toFixed(4)`, a comma and space, `item.longitude.toFixed(4)`. -/
def cardCoordsText (item : Place) : String :=
  toFixed4 item.latitude ++ ", " ++ toFixed4 item.longitude

/-- The draft of the worked example in the spec: title and description
filled, location acquired at `(-8.12, -34.90)`, no photo. -/
def sampleDraft : AppState :=
  { title := "Praia de Boa Viagem", description := "Linda",
    latitude := some (-(812 : Rat) / 100), longitude := some (-(3490 : Rat) / 100),
    photo := none, places := [], loading := false }

/-- The record the server returns for `sampleDraft` in the spec's
worked example. -/
def samplePlace : Place :=
  { id := "abc", title := "Praia de Boa Viagem", description := "Linda",
    latitude := -(812 : Rat) / 100, longitude := -(3490 : Rat) / 100,
    photo := none, createdAt := some "2024-01-01T00:00:00Z" }

/-- A state already holding one fetched place. -/
def staleState : AppState := { initialState with places := [samplePlace] }

/-- A complete draft whose coordinates are both exactly `0`. -/
def zeroDraft : AppState :=
  { title := "t", description := "d", latitude := some 0,
    longitude := some 0, photo := none, places := [], loading := false }

/-- A camera asset carrying both a base64 payload and a raw URI. -/
def sampleAsset : Asset :=
  { base64 := some "QUJD", uri := some "file:///tmp/photo.jpg" }

/-- A completed (not cancelled) camera session returning `sampleAsset`. -/
def sampleCameraResult : CameraResult :=
  { canceled := false, assets := some [sampleAsset] }

/-- A cancelled camera session. -/
def canceledCameraResult : CameraResult :=
  { canceled := true, assets := none }

/-- The list item of the coordinate-display example: latitude
`12.345678`, longitude `-38.123456`. -/
def coordSample : Place :=
  { id := "p1", title := "Praia", description := "d",
    latitude := (12345678 : Rat) / 1000000,
    longitude := -((38123456 : Rat) / 1000000) }

/-- The coordinate invariant: latitude is absent exactly when longitude
is. -/
def coordsTogether (s : AppState) : Prop :=
  s.latitude = none ↔ s.longitude = none

/-- C1: when the guard passes and the POST succeeds, the created record
is prepended (length grows by one, new head is the server response) and
all five draft fields are cleared. -/
theorem handleSave_success_prepends_and_clears (s : AppState) (created : Place)
    (h : missingRequired s = false) :
    ((handleSave s (PostResult.ok created)).1.places = created :: s.places) ∧
    ((handleSave s (PostResult.ok created)).1.places.length
        = s.places.length + 1) ∧
    ((handleSave s (PostResult.ok created)).1.places.head? = some created) ∧
    ((handleSave s (PostResult.ok created)).1.title = "") ∧
    ((handleSave s (PostResult.ok created)).1.description = "") ∧
    ((handleSave s (PostResult.ok created)).1.latitude = none) ∧
    ((handleSave s (PostResult.ok created)).1.longitude = none) ∧
    ((handleSave s (PostResult.ok created)).1.photo = none) := by
  simp [handleSave, h]

/-- Witness for C1 at the spec's worked example. -/
theorem handleSave_success_prepends_and_clears_witness :
    ((handleSave sampleDraft (PostResult.ok samplePlace)).1.places
        = samplePlace :: sampleDraft.places) ∧
    ((handleSave sampleDraft (PostResult.ok samplePlace)).1.places.length
        = sampleDraft.places.length + 1) ∧
    ((handleSave sampleDraft (PostResult.ok samplePlace)).1.places.head?
        = some samplePlace) ∧
    ((handleSave sampleDraft (PostResult.ok samplePlace)).1.title = "") ∧
    ((handleSave sampleDraft (PostResult.ok samplePlace)).1.description = "") ∧
    ((handleSave sampleDraft (PostResult.ok samplePlace)).1.latitude = none) ∧
    ((handleSave sampleDraft (PostResult.ok samplePlace)).1.longitude = none) ∧
    ((handleSave sampleDraft (PostResult.ok samplePlace)).1.photo = none) :=
  handleSave_success_prepends_and_clears sampleDraft samplePlace (by decide)

/-- C2: a submission with empty title, empty description, absent
latitude or absent longitude issues no request, shows the validation
alert and leaves the whole state unchanged; and the photo field is not
consulted: an otherwise-complete draft with no photo still issues the
request. -/
theorem handleSave_missing_fields (s : AppState) (post : PostResult) :
    ((s.title = "" ∨ s.description = "" ∨ s.latitude = none ∨ s.longitude = none) →
      handleSave s post
        = (s, [("Atenção", "Preencha título, descrição e capture a localização.")],
           none)) ∧
    (s.photo = none → s.title ≠ "" → s.description ≠ "" →
      s.latitude ≠ none → s.longitude ≠ none →
      (handleSave s post).2.2 = some (postPayload s)) := by
  constructor
  · intro h
    have hm : missingRequired s = true := by
      rcases h with h | h | h | h <;> simp [missingRequired, h]
    simp [handleSave, hm]
  · intro _ h1 h2 h3 h4
    have hm : missingRequired s = false := by
      simp [missingRequired, h1, h2]
      exact ⟨Option.isSome_iff_ne_none.mpr h3, Option.isSome_iff_ne_none.mpr h4⟩
    cases post <;> simp [handleSave, hm]

/-- Witness for C2: an empty-title draft aborts unchanged with the
validation alert and no request. -/
theorem handleSave_missing_fields_witness :
    handleSave { initialState with description := "d" } PostResult.netError
      = ({ initialState with description := "d" },
         [("Atenção", "Preencha título, descrição e capture a localização.")],
         none) :=
  (handleSave_missing_fields { initialState with description := "d" }
      PostResult.netError).1 (Or.inl rfl)

/-- C3: when the guard passes and the POST fails — non-success response
or thrown exception — the resulting state is exactly the old state with
the loading flag set to `false` (list and every draft field untouched),
and a failure alert is shown. -/
theorem handleSave_failure_frame (s : AppState)
    (h : missingRequired s = false) :
    (handleSave s PostResult.httpError
      = ({ s with loading := false },
         [("Erro", "Falha ao salvar o registro.")], some (postPayload s))) ∧
    (handleSave s PostResult.netError
      = ({ s with loading := false },
         [("Erro", "Falha na conexão com o backend.")], some (postPayload s))) := by
  constructor <;> simp [handleSave, h]

/-- Witness for C3 at the spec's worked example. -/
theorem handleSave_failure_frame_witness :
    handleSave sampleDraft PostResult.httpError
      = ({ sampleDraft with loading := false },
         [("Erro", "Falha ao salvar o registro.")], some (postPayload sampleDraft)) :=
  (handleSave_failure_frame sampleDraft (by decide)).1

/-- C8: whenever the guard passes, the loading flag is `false` in the
final state for every outcome of the POST (success, non-success
response, exception); when the guard fails the flag is never touched. -/
theorem handleSave_clears_loading (s : AppState) (post : PostResult) :
    (missingRequired s = false → (handleSave s post).1.loading = false) ∧
    (missingRequired s = true → (handleSave s post).1.loading = s.loading) := by
  constructor
  · intro h; cases post <;> simp [handleSave, h]
  · intro h; simp [handleSave, h]

/-- Witness for C8: the exception path of the worked example ends with
the loading flag down. -/
theorem handleSave_clears_loading_witness :
    (handleSave sampleDraft PostResult.netError).1.loading = false :=
  (handleSave_clears_loading sampleDraft PostResult.netError).1 (by decide)

/-- C10: a draft with non-empty title and description and both
coordinates equal to `0` passes the guard (`== null` does not see `0`
as absent) and the request is issued with latitude and longitude `0` in
its payload. -/
theorem handleSave_zero_coords_pass (s : AppState) (post : PostResult)
    (h1 : s.title ≠ "") (h2 : s.description ≠ "")
    (h3 : s.latitude = some 0) (h4 : s.longitude = some 0) :
    missingRequired s = false ∧
    (handleSave s post).2.2 = some (postPayload s) ∧
    (postPayload s).latitude = 0 ∧ (postPayload s).longitude = 0 := by
  have hm : missingRequired s = false := by
    simp [missingRequired, h1, h2, h3, h4]
  refine ⟨hm, ?_, ?_, ?_⟩
  · cases post <;> simp [handleSave, hm]
  · simp [postPayload, h3]
  · simp [postPayload, h4]

/-- Witness for C10: a concrete zero-coordinate draft issues the
request. -/
theorem handleSave_zero_coords_pass_witness :
    missingRequired zeroDraft = false ∧
    (handleSave zeroDraft PostResult.httpError).2.2
      = some (postPayload zeroDraft) ∧
    (postPayload zeroDraft).latitude = 0 ∧
    (postPayload zeroDraft).longitude = 0 :=
  handleSave_zero_coords_pass zeroDraft PostResult.httpError
    (by decide) (by decide) rfl rfl

/-- C4 counterexample: a non-success HTTP response whose body parses as
a JSON array is treated as a success by `fetchPlaces` — starting from a
list holding one place, a response with `ok = false` and body `[]`
replaces the list (so the list changes) and produces no notification,
refuting the claim that every non-success response leaves the list
unchanged and surfaces a notification. -/
theorem fetchPlaces_http_failure_counterexample :
    (fetchPlaces staleState (FetchOutcome.response false (some []))).1.places
        ≠ staleState.places ∧
    (fetchPlaces staleState (FetchOutcome.response false (some []))).2 = [] := by
  constructor
  · decide
  · rfl

/-- C4 (amended): when the initial list fetch throws a network error,
or its body fails to parse as JSON, the places list is left unchanged
and the load-failure alert is surfaced; the single call issues no
retry.  (The HTTP status is never inspected, so a non-success response
with a parseable body is not a handled failure.) -/
theorem fetchPlaces_failure_frame (s : AppState) (o : FetchOutcome)
    (h : o = FetchOutcome.netError ∨ ∃ flag, o = FetchOutcome.response flag none) :
    fetchPlaces s o
      = (s, [("Erro", "Não foi possível carregar os registros")]) := by
  rcases h with h | ⟨flag, h⟩ <;> subst h <;> rfl

/-- Witness for the amended C4: the network-error outcome on a stale
list. -/
theorem fetchPlaces_failure_frame_witness :
    fetchPlaces staleState FetchOutcome.netError
      = (staleState, [("Erro", "Não foi possível carregar os registros")]) :=
  fetchPlaces_failure_frame staleState FetchOutcome.netError (Or.inl rfl)

/-- C5: a granted, non-cancelled capture with a first asset whose
base64 payload is present (and non-empty, the JS truthiness test)
stores the base64 data URI, never the raw URI; the raw URI is stored
only when the base64 payload is falsy. -/
theorem takePhoto_prefers_base64 (s : AppState) (r : CameraResult) (a : Asset)
    (rest : List Asset) (hc : r.canceled = false)
    (ha : r.assets = some (a :: rest)) :
    (∀ b, a.base64 = some b → b ≠ "" →
        (takePhoto s "granted" r).1.photo
          = some ("data:image/jpeg;base64," ++ b)) ∧
    (truthyOptStr a.base64 = false → ∀ u, a.uri = some u → u ≠ "" →
        (takePhoto s "granted" r).1.photo = some u) := by
  constructor
  · intro b hb hbne
    have ht : truthyOptStr (some b) = true := by simp [truthyOptStr, hbne]
    simp [takePhoto, hc, ha, hb, ht]
  · intro hf u hu hune
    have ht : truthyOptStr (some u) = true := by simp [truthyOptStr, hune]
    simp [takePhoto, hc, ha, hf, hu, ht]

/-- Witness for C5: with both payloads present, the stored photo is the
data URI built from the base64 payload. -/
theorem takePhoto_prefers_base64_witness :
    (takePhoto initialState "granted" sampleCameraResult).1.photo
      = some ("data:image/jpeg;base64," ++ "QUJD") :=
  (takePhoto_prefers_base64 initialState sampleCameraResult sampleAsset []
      rfl rfl).1 "QUJD" rfl (by decide)

/-- C6: a granted capture that the user cancels returns the state
unchanged (in particular the photo keeps its old value) and raises no
alert. -/
theorem takePhoto_cancel_noop (s : AppState) (r : CameraResult)
    (hc : r.canceled = true) :
    takePhoto s "granted" r = (s, []) := by
  simp [takePhoto, hc]

/-- Witness for C6 at a concrete cancelled session. -/
theorem takePhoto_cancel_noop_witness :
    takePhoto initialState "granted" canceledCameraResult
      = (initialState, []) :=
  takePhoto_cancel_noop initialState canceledCameraResult rfl

/-- C7: the coordinate line of `renderItem` for latitude `12.345678`
and longitude `-38.123456` is exactly `"12.3457, -38.1235"` — four
fixed decimal places with standard rounding. -/
theorem cardCoordsText_rounds_to_four_places :
    cardCoordsText coordSample = "12.3457, -38.1235" := by
  have h1 : (12345678 : Rat) / 1000000
      = Rat.mk' 6172839 500000 (by decide) (by decide) := by
    rw [Rat.mk'_eq_divInt, Rat.divInt_eq_div]
    norm_num
  have h2 : -((38123456 : Rat) / 1000000)
      = Rat.mk' (-595679) 15625 (by decide) (by decide) := by
    rw [Rat.mk'_eq_divInt, Rat.divInt_eq_div]
    norm_num
  show toFixed4 ((12345678 : Rat) / 1000000) ++ ", "
      ++ toFixed4 (-((38123456 : Rat) / 1000000)) = "12.3457, -38.1235"
  rw [h1, h2]
  decide

/-- `takePhoto` never touches the coordinates, whatever the permission
status and camera outcome. -/
theorem takePhoto_preserves_coords (s : AppState) (status : String)
    (r : CameraResult) :
    (takePhoto s status r).1.latitude = s.latitude ∧
    (takePhoto s status r).1.longitude = s.longitude := by
  unfold takePhoto
  repeat' split
  all_goals exact ⟨rfl, rfl⟩

/-- C9: latitude and longitude are absent only together — the invariant
holds initially and is preserved by location capture, photo capture and
submission in every outcome. -/
theorem coords_set_together :
    coordsTogether initialState ∧
    (∀ s status position, coordsTogether s →
        coordsTogether (getLocation s status position).1) ∧
    (∀ s status r, coordsTogether s →
        coordsTogether (takePhoto s status r).1) ∧
    (∀ s post, coordsTogether s → coordsTogether (handleSave s post).1) := by
  refine ⟨?_, ?_, ?_, ?_⟩
  · simp [coordsTogether, initialState]
  · intro s status position h
    unfold getLocation
    split
    · exact h
    · simp [coordsTogether]
  · intro s status r h
    have hp := takePhoto_preserves_coords s status r
    unfold coordsTogether at h ⊢
    rw [hp.1, hp.2]
    exact h
  · intro s post h
    cases hm : missingRequired s with
    | true => simpa [handleSave, hm, coordsTogether] using h
    | false =>
        cases post with
        | ok created => simp [handleSave, hm, coordsTogether]
        | httpError => simpa [handleSave, hm, coordsTogether] using h
        | netError => simpa [handleSave, hm, coordsTogether] using h

/-- Witness for C9: the invariant after a failed submission from the
initial state. -/
theorem coords_set_together_witness :
    coordsTogether (handleSave initialState PostResult.netError).1 :=
  coords_set_together.2.2.2 initialState PostResult.netError
    coords_set_together.1
